import Mathlib

/-!
Verification of the mockmate Submission Evaluation Engine
(`practice/services.py`, `practice/views.py`, `practice/models.py`).

The Python services are shallowly embedded: the JDoodle network call is
abstracted by a `ProviderResponse` oracle indexed by call number (the
response the provider would give to the i-th request of an evaluation
run); everything after the network boundary is translated directly from
the source.  Machine floats (`cpuTime`, `execution_time`, `best_runtime`)
are modelled as `Rat`: none of the verified properties depend on
floating-point rounding, only on order and equality of the stored values.
-/

namespace Mockmate

/-- Python `str.strip()` whitespace test (ASCII whitespace characters). -/
def pyWhitespace (c : Char) : Bool :=
  c = ' ' || c = '\t' || c = '\n' || c = '\r' || c = '\x0b' || c = '\x0c'

/-- Python `str.strip()` on a character list: drop leading and trailing
whitespace. -/
def pyStripList (l : List Char) : List Char :=
  ((l.dropWhile pyWhitespace).reverse.dropWhile pyWhitespace).reverse

/-- Python `str.strip()`: removes all leading and trailing whitespace. -/
def pyStrip (s : String) : String :=
  ⟨pyStripList s.toList⟩

/-- Python truthiness of an optional string (`if result['error']:`):
present and non-empty. -/
def errTruthy : Option String → Bool
  | none => false
  | some s => s ≠ ""

/-- `LANGUAGE_MAPPING` from `practice/services.py`: internal identifier ↦
(JDoodle language, versionIndex). -/
def LANGUAGE_MAPPING : List (String × String × String) :=
  [("python3", "python3", "0"),
   ("cpp17", "cpp17", "0"),
   ("java", "java", "3"),
   ("javascript", "nodejs", "3"),
   ("csharp", "csharp", "3"),
   ("go", "go", "3"),
   ("rust", "rust", "3"),
   ("php", "php", "3"),
   ("ruby", "ruby", "3"),
   ("kotlin", "kotlin", "2"),
   ("swift", "swift", "3")]

/-- `language in LANGUAGE_MAPPING` from `run_code`. -/
def languageSupported (language : String) : Bool :=
  LANGUAGE_MAPPING.any (fun e => e.1 = language)

/-- What the external execution provider does with one request: a JSON
response (with the fields `run_code` reads, each possibly absent), a
network-level failure (`requests.exceptions.RequestException`, which
covers connection errors and the 10-second timeout), or any other
exception raised while processing the response. -/
inductive ProviderResponse where
  | success (output : Option String) (memory : Option Rat) (cpuTime : Option Rat)
      (error : Option String)
  | requestFailure (msg : String)
  | otherFailure (msg : String)
deriving DecidableEq

/-- The dictionary `run_code` returns.  A key missing from the Python
dict reads as falsy through `.get`, which `none` / `false` model. -/
structure ExecResult where
  output : String
  memory : Option Rat
  cpuTime : Option Rat
  error : Option String
  is_compilation_error : Bool
deriving DecidableEq

/-- `CodeExecutionService.run_code`.  The `code` and `std_input` arguments
are placed into the request payload; the provider's reaction to the
payload is abstracted by `resp`. -/
def run_code (language code std_input : String) (resp : ProviderResponse) : ExecResult :=
  if languageSupported language = false then
    { output := "", memory := none, cpuTime := none,
      error := some "Unsupported language", is_compilation_error := false }
  else
    match resp with
    | ProviderResponse.requestFailure _ =>
      { output := "", memory := none, cpuTime := none,
        error := some "Failed to connect to execution service.",
        is_compilation_error := false }
    | ProviderResponse.otherFailure msg =>
      { output := "", memory := none, cpuTime := none,
        error := some msg, is_compilation_error := false }
    | ProviderResponse.success output memory cpuTime error =>
      if errTruthy error then
        { output := output.getD "", memory := memory, cpuTime := cpuTime,
          error := error, is_compilation_error := true }
      else
        { output := pyStrip (output.getD ""), memory := memory, cpuTime := cpuTime,
          error := none, is_compilation_error := false }

/-- `practice/models.py` `TestCase` (the fields evaluation reads). -/
structure TestCase where
  id : String
  input_data : String
  expected_output : String
  is_sample : Bool
  is_hidden : Bool
  order : Nat
  description : String
deriving DecidableEq

/-- One element of `individual_results` in `evaluate_submission`.  The
three branches of the loop build dictionaries with different key sets;
a key absent from a branch's dictionary is `none`. -/
structure CaseResult where
  case_number : Nat
  status : String
  is_sample : Option Bool
  input : String
  expected_output : Option String
  actual_output : Option String
  error_message : Option String
deriving DecidableEq

/-- The result dictionary `evaluate_submission` appends for one test
case, as a function of the case's position, the case, and the
`run_code` result. -/
def entryFor (idx : Nat) (tc : TestCase) (r : ExecResult) : CaseResult :=
  if r.is_compilation_error then
    { case_number := idx + 1, status := "Compilation Error", is_sample := none,
      input := if tc.is_sample then tc.input_data else "[Hidden]",
      expected_output := none, actual_output := none,
      error_message := some r.output }
  else if errTruthy r.error then
    { case_number := idx + 1, status := "Runtime Error", is_sample := none,
      input := if tc.is_sample then tc.input_data else "[Hidden]",
      expected_output := none, actual_output := none,
      error_message := r.error }
  else
    { case_number := idx + 1,
      status := if r.output = pyStrip tc.expected_output then "PASSED" else "FAILED",
      is_sample := some tc.is_sample,
      input := if tc.is_sample then tc.input_data else "[Hidden]",
      expected_output := some (if tc.is_sample then pyStrip tc.expected_output else "[Hidden]"),
      actual_output := some (if tc.is_sample then r.output else "[Hidden]"),
      error_message := none }

/-- The loop state of `evaluate_submission`; `calls` counts `run_code`
invocations (one per loop iteration, instrumentation only). -/
structure EvalState where
  passed_count : Nat
  overall_status : String
  results : List CaseResult
  max_cpu_time : Rat
  max_memory : Rat
  calls : Nat
deriving DecidableEq

/-- An outcome on which the `evaluate_submission` loop breaks: compilation
error or truthy `error` field (runtime error, provider failure, or
unsupported language). -/
def isFatal (r : ExecResult) : Bool :=
  r.is_compilation_error || errTruthy r.error

/-- The `for i, test_case in enumerate(test_cases)` loop of
`evaluate_submission`: `i` is the position of the current case, `st` the
accumulated state. -/
def runCases (language code : String) (oracle : Nat → ProviderResponse) :
    List TestCase → Nat → EvalState → EvalState
  | [], _, st => st
  | tc :: rest, i, st =>
    let r := run_code language code tc.input_data (oracle i)
    let st1 : EvalState :=
      { st with
        calls := st.calls + 1,
        max_cpu_time :=
          match r.cpuTime with
          | some t => max st.max_cpu_time t
          | none => st.max_cpu_time,
        max_memory :=
          match r.memory with
          | some m => max st.max_memory m
          | none => st.max_memory }
    if r.is_compilation_error then
      { st1 with overall_status := "COMPILATION_ERROR",
                 results := st1.results ++ [entryFor i tc r] }
    else if errTruthy r.error then
      { st1 with overall_status := "RUNTIME_ERROR",
                 results := st1.results ++ [entryFor i tc r] }
    else
      runCases language code oracle rest (i + 1)
        { st1 with
          passed_count :=
            st1.passed_count + (if r.output = pyStrip tc.expected_output then 1 else 0),
          overall_status :=
            if r.output = pyStrip tc.expected_output then st1.overall_status
            else "WRONG_ANSWER",
          results := st1.results ++ [entryFor i tc r] }

/-- The `final_result` dictionary of `evaluate_submission` (the zero-case
early return carries the extra `message` key). -/
structure EvalResult where
  status : String
  message : Option String
  passed_cases : Nat
  total_cases : Nat
  results : List CaseResult
  execution_time : Rat
  memory_used : Rat
deriving DecidableEq

/-- The initial loop state of `evaluate_submission`. -/
def initEvalState : EvalState :=
  { passed_count := 0, overall_status := "ACCEPTED", results := [],
    max_cpu_time := 0, max_memory := 0, calls := 0 }

/-- `CodeExecutionService.evaluate_submission`.  `cases` is the problem's
test-case list already sorted by `order` (the service fetches it with
`order_by('order')`). -/
def evaluate_submission (language code : String) (oracle : Nat → ProviderResponse)
    (cases : List TestCase) : EvalResult :=
  if cases.isEmpty then
    { status := "INTERNAL_ERROR",
      message := some "No test cases found for this problem.",
      passed_cases := 0, total_cases := 0, results := [],
      execution_time := 0, memory_used := 0 }
  else
    let st := runCases language code oracle cases 0 initEvalState
    { status := st.overall_status, message := none,
      passed_cases := st.passed_count, total_cases := cases.length,
      results := st.results,
      execution_time := st.max_cpu_time, memory_used := st.max_memory }

/-- Number of Execution Client invocations an evaluation run makes. -/
def evalCalls (language code : String) (oracle : Nat → ProviderResponse)
    (cases : List TestCase) : Nat :=
  if cases.isEmpty then 0
  else (runCases language code oracle cases 0 initEvalState).calls

/-- `SUBMISSION_STATUS_CHOICES` from `practice/models.py`. -/
def SUBMISSION_STATUS_CHOICES : List (String × String) :=
  [("PENDING", "Pending"),
   ("RUNNING", "Running"),
   ("ACCEPTED", "Accepted"),
   ("WRONG_ANSWER", "Wrong Answer"),
   ("TIME_LIMIT_EXCEEDED", "Time Limit Exceeded"),
   ("MEMORY_LIMIT_EXCEEDED", "Memory Limit Exceeded"),
   ("RUNTIME_ERROR", "Runtime Error"),
   ("COMPILATION_ERROR", "Compilation Error"),
   ("PRESENTATION_ERROR", "Presentation Error"),
   ("INTERNAL_ERROR", "Internal Error")]

/-- The HTTP response of the `submit_solution` view. -/
inductive SubmitResponse where
  | badRequest (message : String)
  | ok (status : String) (passed_cases total_cases : Nat) (results : List CaseResult)
deriving DecidableEq

/-- Observable effect of one `submit_solution` call: whether a
`PracticeSubmission` row was created, the sequence of values stored in
its `status` field over time, and the JSON response. -/
structure SubmitOutcome where
  record_created : Bool
  status_trace : List String
  response : SubmitResponse
deriving DecidableEq

/-- The `submit_solution` view (`practice/views.py`): validates presence
of code and language, creates a PENDING record, evaluates, then saves the
final status.  `cases` is the published problem's ordered test-case
list. -/
def submit_solution (code language : String) (oracle : Nat → ProviderResponse)
    (cases : List TestCase) : SubmitOutcome :=
  if code = "" ∨ language = "" then
    { record_created := false, status_trace := [],
      response := SubmitResponse.badRequest "Code and language are required." }
  else
    let ev := evaluate_submission language code oracle cases
    { record_created := true,
      status_trace := ["PENDING", ev.status],
      response := SubmitResponse.ok ev.status ev.passed_cases ev.total_cases ev.results }

/-- Fatality flag of each case's execution outcome, in evaluation order
starting at call index `i`. -/
def fatalFlags (language code : String) (oracle : Nat → ProviderResponse) :
    Nat → List TestCase → List Bool
  | _, [] => []
  | i, tc :: rest =>
    isFatal (run_code language code tc.input_data (oracle i))
      :: fatalFlags language code oracle (i + 1) rest

/-- Modelled from the spec's words, for comparison with the loop: the
number of cases executed is the length of the prefix up to and including
the first fatal outcome, or all of them when none is fatal. -/
def specExecutedCount : List Bool → Nat
  | [] => 0
  | b :: rest => if b then 1 else specExecutedCount rest + 1

/-- Count of `PASSED` entries in a result list. -/
def countPassed (rs : List CaseResult) : Nat :=
  rs.countP (fun r => r.status = "PASSED")

/-- One element of the list `run_against_test_cases` returns (the sample
test-run surface).  Keys absent from a branch's dictionary are `none`. -/
structure SampleRunEntry where
  test_case_id : String
  description : String
  passed : Bool
  error : Option String
  error_message : Option String
  input : String
  expected_output : String
  actual_output : String
  execution_time : Rat
  memory : Option Rat
deriving DecidableEq

/-- The dictionary `run_against_test_cases` appends for one test case,
as a function of the case and the `run_code` result. -/
def sampleEntryFor (tc : TestCase) (r : ExecResult) : SampleRunEntry :=
  if r.is_compilation_error then
    { test_case_id := tc.id,
      description := if tc.description = "" then "Test Case" else tc.description,
      passed := false, error := some "Compilation Error",
      error_message := some r.output,
      input := if tc.is_sample then tc.input_data else "[Hidden]",
      expected_output := if tc.is_sample then tc.expected_output else "[Hidden]",
      actual_output := "",
      execution_time := 0, memory := none }
  else if errTruthy r.error then
    { test_case_id := tc.id,
      description := if tc.description = "" then "Test Case" else tc.description,
      passed := false, error := some "Runtime Error",
      error_message := r.error,
      input := if tc.is_sample then tc.input_data else "[Hidden]",
      expected_output := if tc.is_sample then tc.expected_output else "[Hidden]",
      actual_output := r.output,
      execution_time := r.cpuTime.getD 0, memory := none }
  else
    { test_case_id := tc.id,
      description :=
        if tc.description = "" then "Test Case " ++ toString (tc.order + 1)
        else tc.description,
      passed := pyStrip r.output = pyStrip tc.expected_output,
      error := none, error_message := none,
      input := if tc.is_sample then tc.input_data else "[Hidden]",
      expected_output := if tc.is_sample then pyStrip tc.expected_output else "[Hidden]",
      actual_output :=
        if tc.is_sample then pyStrip r.output
        else if pyStrip r.output = pyStrip tc.expected_output then "[Correct]"
        else "[Hidden]",
      execution_time := r.cpuTime.getD 0, memory := r.memory.getD 0 }

/-- `CodeExecutionService.run_against_test_cases`: stops after a
compilation error, continues past runtime errors and mismatches.  The
unused `time_limit` parameter of the source is omitted (the source never
reads it). -/
def run_against_test_cases (code language : String) (oracle : Nat → ProviderResponse) :
    List TestCase → Nat → List SampleRunEntry
  | [], _ => []
  | tc :: rest, i =>
    let r := run_code language code tc.input_data (oracle i)
    if r.is_compilation_error then
      [sampleEntryFor tc r]
    else if errTruthy r.error then
      sampleEntryFor tc r :: run_against_test_cases code language oracle rest (i + 1)
    else
      sampleEntryFor tc r :: run_against_test_cases code language oracle rest (i + 1)

/-- The fields of `UserProblemStats` that
`TestCaseService.update_user_problem_stats` reads or writes. -/
structure UserProblemStatsR where
  is_attempted : Bool
  is_solved : Bool
  first_solved_at : Option Nat
  total_attempts : Nat
  best_runtime : Rat
  best_memory : Rat
  best_submission : Option Nat
deriving DecidableEq

/-- The fields of `UserStats` that `update_user_problem_stats` writes
(streak bookkeeping and badge points act on fields outside this model). -/
structure UserStatsR where
  problems_solved : Nat
  total_submissions : Nat
  accepted_submissions : Nat
  easy_solved : Nat
  medium_solved : Nat
  hard_solved : Nat
deriving DecidableEq

/-- The `PracticeProblem` aggregate counters. -/
structure ProblemCounters where
  total_submissions : Nat
  accepted_submissions : Nat
deriving DecidableEq

/-- The fields of a finalized submission that the statistics updater
reads.  `execution_time` and `memory_used` are nullable columns, hence
`Option`; Python truthiness makes a stored `0` behave like null. -/
structure SubmissionInfo where
  id : Nat
  execution_time : Option Rat
  memory_used : Option Rat
deriving DecidableEq

/-- The three records `update_user_problem_stats` mutates. -/
structure StatsState where
  ups : UserProblemStatsR
  us : UserStatsR
  prob : ProblemCounters
deriving DecidableEq

/-- The `if submission.execution_time: if not best_runtime or
submission.execution_time < best_runtime:` block. -/
def updateBestRuntime (sub : SubmissionInfo) (u : UserProblemStatsR) : UserProblemStatsR :=
  match sub.execution_time with
  | none => u
  | some t =>
    if t = 0 then u
    else if u.best_runtime = 0 ∨ t < u.best_runtime then
      { u with best_runtime := t, best_submission := some sub.id }
    else u

/-- The `if submission.memory_used: if not best_memory or
submission.memory_used < best_memory:` block. -/
def updateBestMemory (sub : SubmissionInfo) (u : UserProblemStatsR) : UserProblemStatsR :=
  match sub.memory_used with
  | none => u
  | some m =>
    if m = 0 then u
    else if u.best_memory = 0 ∨ m < u.best_memory then
      { u with best_memory := m }
    else u

/-- `TestCaseService.update_user_problem_stats` (the statistics
updater).  `now` stands for `timezone.now()`. -/
def update_user_problem_stats (now : Nat) (difficulty : String) (sub : SubmissionInfo)
    (status : String) (s : StatsState) : StatsState :=
  let ups0 : UserProblemStatsR :=
    { s.ups with is_attempted := true, total_attempts := s.ups.total_attempts + 1 }
  if status = "ACCEPTED" then
    let firstSolve := ups0.is_solved = false
    let ups1 : UserProblemStatsR :=
      if ups0.is_solved then ups0
      else { ups0 with is_solved := true, first_solved_at := some now }
    let us1 : UserStatsR :=
      if firstSolve then
        { s.us with
          problems_solved := s.us.problems_solved + 1,
          accepted_submissions := s.us.accepted_submissions + 1,
          total_submissions := s.us.total_submissions + 1,
          easy_solved := s.us.easy_solved + (if difficulty = "EASY" then 1 else 0),
          medium_solved := s.us.medium_solved + (if difficulty = "MEDIUM" then 1 else 0),
          hard_solved := s.us.hard_solved + (if difficulty = "HARD" then 1 else 0) }
      else
        { s.us with total_submissions := s.us.total_submissions + 1 }
    let ups2 := updateBestMemory sub (updateBestRuntime sub ups1)
    { ups := ups2, us := us1,
      prob := { total_submissions := s.prob.total_submissions + 1,
                accepted_submissions := s.prob.accepted_submissions + 1 } }
  else
    { ups := ups0,
      us := { s.us with total_submissions := s.us.total_submissions + 1 },
      prob := { s.prob with total_submissions := s.prob.total_submissions + 1 } }

/-- A per-case result that reveals none of the test case's content: the
input field is the mask constant and any populated output field is the
mask constant. -/
def maskedEntry (r : CaseResult) : Prop :=
  r.input = "[Hidden]"
    ∧ (∀ s, r.expected_output = some s → s = "[Hidden]")
    ∧ (∀ s, r.actual_output = some s → s = "[Hidden]")

/-- A sample-run entry that reveals none of the test case's content:
input and expected output are the mask constant and the actual-output
field is one of the three content-independent constants the source
writes for hidden cases. -/
def maskedSample (e : SampleRunEntry) : Prop :=
  e.input = "[Hidden]"
    ∧ e.expected_output = "[Hidden]"
    ∧ (e.actual_output = "" ∨ e.actual_output = "[Hidden]" ∨ e.actual_output = "[Correct]")

/-- The value the best-score guard stores: keep `b` unless the new value
is truthy and either no best is recorded (`b = 0`) or the new value is
strictly lower. -/
def bestVal (t0 : Option Rat) (b : Rat) : Rat :=
  match t0 with
  | none => b
  | some t => if t = 0 then b else if b = 0 ∨ t < b then t else b

/-! ### Structural lemmas about the evaluation loop -/

theorem runCases_length_calls (language code : String) (oracle : Nat → ProviderResponse)
    (cases : List TestCase) :
    ∀ (i : Nat) (st : EvalState),
      (runCases language code oracle cases i st).results.length
          = st.results.length + specExecutedCount (fatalFlags language code oracle i cases)
        ∧ (runCases language code oracle cases i st).calls
          = st.calls + specExecutedCount (fatalFlags language code oracle i cases) := by
  induction cases with
  | nil =>
    intro i st
    simp [runCases, fatalFlags, specExecutedCount]
  | cons tc rest ih =>
    intro i st
    by_cases hc : (run_code language code tc.input_data (oracle i)).is_compilation_error = true
    · simp [runCases, fatalFlags, specExecutedCount, isFatal, hc]
    · by_cases he : errTruthy (run_code language code tc.input_data (oracle i)).error = true
      · simp [runCases, fatalFlags, specExecutedCount, isFatal, hc, he]
      · simp only [runCases]
        simp [hc, he, fatalFlags, specExecutedCount, isFatal]
        constructor
        · rw [(ih (i + 1) _).1]
          simp
          omega
        · rw [(ih (i + 1) _).2]
          simp
          omega

theorem specExecutedCount_all_false (flags : List Bool)
    (h : ∀ b ∈ flags, b = false) : specExecutedCount flags = flags.length := by
  induction flags with
  | nil => simp [specExecutedCount]
  | cons b rest ih =>
    have hb : b = false := h b (by simp)
    simp [specExecutedCount, hb, ih (fun x hx => h x (by simp [hx]))]

theorem fatalFlags_length (language code : String) (oracle : Nat → ProviderResponse)
    (cases : List TestCase) : ∀ i, (fatalFlags language code oracle i cases).length = cases.length := by
  induction cases with
  | nil => intro i; simp [fatalFlags]
  | cons tc rest ih => intro i; simp [fatalFlags, ih]

theorem runCases_passed (language code : String) (oracle : Nat → ProviderResponse)
    (cases : List TestCase) :
    ∀ (i : Nat) (st : EvalState),
      (runCases language code oracle cases i st).passed_count
          + countPassed st.results
        = st.passed_count + countPassed (runCases language code oracle cases i st).results := by
  induction cases with
  | nil => intro i st; simp [runCases]
  | cons tc rest ih =>
    intro i st
    by_cases hc : (run_code language code tc.input_data (oracle i)).is_compilation_error = true
    · simp [runCases, hc, countPassed, entryFor, List.countP_append]
    · by_cases he : errTruthy (run_code language code tc.input_data (oracle i)).error = true
      · simp [runCases, hc, he, countPassed, entryFor, List.countP_append]
      · simp only [runCases]
        simp [hc, he]
        have h := ih (i + 1)
          ({ st with
             passed_count := st.passed_count
               + (if (run_code language code tc.input_data (oracle i)).output
                     = pyStrip tc.expected_output then 1 else 0),
             overall_status :=
               if (run_code language code tc.input_data (oracle i)).output
                   = pyStrip tc.expected_output then st.overall_status
               else "WRONG_ANSWER",
             results := st.results
               ++ [entryFor i tc (run_code language code tc.input_data (oracle i))],
             calls := st.calls + 1,
             max_cpu_time :=
               match (run_code language code tc.input_data (oracle i)).cpuTime with
               | some t => max st.max_cpu_time t
               | none => st.max_cpu_time,
             max_memory :=
               match (run_code language code tc.input_data (oracle i)).memory with
               | some m => max st.max_memory m
               | none => st.max_memory })
        by_cases hp : (run_code language code tc.input_data (oracle i)).output
            = pyStrip tc.expected_output
        · simp [hp] at h ⊢
          simp only [countPassed, List.countP_append, List.countP_cons, List.countP_nil] at h ⊢
          simp [entryFor, hc, he, hp] at h ⊢
          omega
        · simp [hp] at h ⊢
          simp only [countPassed, List.countP_append, List.countP_cons, List.countP_nil] at h ⊢
          simp [entryFor, hc, he, hp] at h ⊢
          omega

theorem runCases_status_invariant (language code : String) (oracle : Nat → ProviderResponse)
    (cases : List TestCase) :
    ∀ (i : Nat) (st : EvalState) (S : List String),
      st.overall_status ∈ S → "COMPILATION_ERROR" ∈ S → "RUNTIME_ERROR" ∈ S →
      "WRONG_ANSWER" ∈ S →
      (runCases language code oracle cases i st).overall_status ∈ S := by
  induction cases with
  | nil =>
    intro i st S h1 _ _ _
    simpa [runCases] using h1
  | cons tc rest ih =>
    intro i st S h1 h2 h3 h4
    simp only [runCases]
    by_cases hc : (run_code language code tc.input_data (oracle i)).is_compilation_error = true
    · simp [hc]
      exact h2
    · by_cases he : errTruthy (run_code language code tc.input_data (oracle i)).error = true
      · simp [hc, he]
        exact h3
      · simp [hc, he]
        by_cases hp : (run_code language code tc.input_data (oracle i)).output
            = pyStrip tc.expected_output
        · simp [hp]
          exact ih (i + 1) _ S h1 h2 h3 h4
        · simp [hp]
          exact ih (i + 1) _ S h4 h2 h3 h4

theorem runCases_accepted (language code : String) (oracle : Nat → ProviderResponse)
    (cases : List TestCase) :
    ∀ (i : Nat) (st : EvalState),
      (runCases language code oracle cases i st).overall_status = "ACCEPTED" →
        st.overall_status = "ACCEPTED"
          ∧ (runCases language code oracle cases i st).passed_count
              = st.passed_count + cases.length
          ∧ (runCases language code oracle cases i st).results.length
              = st.results.length + cases.length
          ∧ ∀ r ∈ (runCases language code oracle cases i st).results,
              r ∈ st.results ∨ r.status = "PASSED" := by
  induction cases with
  | nil =>
    intro i st h
    simp [runCases] at h ⊢
    exact ⟨h, fun r hr => Or.inl hr⟩
  | cons tc rest ih =>
    intro i st h
    simp only [runCases] at h ⊢
    by_cases hc : (run_code language code tc.input_data (oracle i)).is_compilation_error = true
    · simp [hc] at h
    · by_cases he : errTruthy (run_code language code tc.input_data (oracle i)).error = true
      · simp [hc, he] at h
      · by_cases hp : (run_code language code tc.input_data (oracle i)).output
            = pyStrip tc.expected_output
        · simp [hc, he, hp] at h ⊢
          obtain ⟨h1, h2, h3, h4⟩ := ih (i + 1) _ h
          refine ⟨h1, by simp at h2 ⊢; omega, by simp at h3 ⊢; omega, ?_⟩
          intro r hr
          rcases h4 r hr with hmem | hpass
          · rcases List.mem_append.mp hmem with hl | hsingle
            · exact Or.inl hl
            · right
              have := List.mem_singleton.mp hsingle
              subst this
              simp [entryFor, hc, he, hp]
          · exact Or.inr hpass
        · simp [hc, he, hp] at h ⊢
          obtain ⟨h1, -⟩ := ih (i + 1) _ h
          simp at h1

theorem runCases_runtime_break (language code : String) (oracle : Nat → ProviderResponse) :
    ∀ (cases : List TestCase) (i : Nat) (st : EvalState) (k : Nat) (tc : TestCase),
      cases.get? k = some tc →
      (∀ j tcj, j < k → cases.get? j = some tcj →
        isFatal (run_code language code tcj.input_data (oracle (i + j))) = false) →
      (run_code language code tc.input_data (oracle (i + k))).is_compilation_error = false →
      errTruthy (run_code language code tc.input_data (oracle (i + k))).error = true →
      (runCases language code oracle cases i st).overall_status = "RUNTIME_ERROR" := by
  intro cases
  induction cases with
  | nil =>
    intro i st k tc hget hbefore hcomp herr
    simp at hget
  | cons tc0 rest ih =>
    intro i st k tc hget hbefore hcomp herr
    cases k with
    | zero =>
      have htc : tc0 = tc := by simpa using hget
      subst htc
      simp only [Nat.add_zero] at hcomp herr
      simp only [runCases]
      simp [hcomp, herr]
    | succ k =>
      have h0 : isFatal (run_code language code tc0.input_data (oracle (i + 0))) = false :=
        hbefore 0 tc0 (Nat.succ_pos k) (by simp)
      simp only [Nat.add_zero, isFatal, Bool.or_eq_false_iff] at h0
      simp only [runCases]
      simp [h0.1, h0.2]
      apply ih (i + 1) _ k tc
      · simpa using hget
      · intro j tcj hj hgj
        have hb := hbefore (j + 1) tcj (by omega) (by simpa using hgj)
        have harith : i + (j + 1) = i + 1 + j := by omega
        rwa [harith] at hb
      · have harith : i + (k + 1) = i + 1 + k := by omega
        rwa [harith] at hcomp
      · have harith : i + (k + 1) = i + 1 + k := by omega
        rwa [harith] at herr

theorem entryFor_case_number (idx : Nat) (tc : TestCase) (r : ExecResult) :
    (entryFor idx tc r).case_number = idx + 1 := by
  simp only [entryFor]
  split
  · rfl
  · split
    · rfl
    · rfl

theorem entryFor_masked (idx : Nat) (tc : TestCase) (r : ExecResult)
    (h : tc.is_sample = false) : maskedEntry (entryFor idx tc r) := by
  simp only [entryFor, maskedEntry, h]
  split
  · simp
  · split
    · simp
    · simp

theorem runCases_results_shape (language code : String) (oracle : Nat → ProviderResponse) :
    ∀ (cases : List TestCase) (i : Nat) (st : EvalState),
      ∀ r ∈ (runCases language code oracle cases i st).results,
        r ∈ st.results
          ∨ ∃ k tc, cases.get? k = some tc
              ∧ r = entryFor (i + k) tc
                  (run_code language code tc.input_data (oracle (i + k))) := by
  intro cases
  induction cases with
  | nil =>
    intro i st r hr
    simp [runCases] at hr
    exact Or.inl hr
  | cons tc0 rest ih =>
    intro i st r hr
    simp only [runCases] at hr
    by_cases hc : (run_code language code tc0.input_data (oracle i)).is_compilation_error = true
    · simp [hc] at hr
      rcases hr with hl | hsingle
      · exact Or.inl hl
      · exact Or.inr ⟨0, tc0, by simp, by simpa using hsingle⟩
    · by_cases he : errTruthy (run_code language code tc0.input_data (oracle i)).error = true
      · simp [hc, he] at hr
        rcases hr with hl | hsingle
        · exact Or.inl hl
        · exact Or.inr ⟨0, tc0, by simp, by simpa using hsingle⟩
      · simp [hc, he] at hr
        rcases ih (i + 1) _ r hr with hmem | ⟨k, tc, hget, hee⟩
        · rcases List.mem_append.mp hmem with hl | hsingle
          · exact Or.inl hl
          · exact Or.inr ⟨0, tc0, by simp,
              by simpa using List.mem_singleton.mp hsingle⟩
        · refine Or.inr ⟨k + 1, tc, by simpa using hget, ?_⟩
          have h2 : i + (k + 1) = i + 1 + k := by omega
          rw [h2]
          exact hee

theorem entryFor_congr (idx : Nat) (tc1 tc2 : TestCase) (r : ExecResult)
    (hs : tc1.is_sample = tc2.is_sample)
    (hss : tc1.is_sample = true → tc1 = tc2)
    (hiff : (r.output = pyStrip tc1.expected_output)
      ↔ (r.output = pyStrip tc2.expected_output)) :
    entryFor idx tc1 r = entryFor idx tc2 r := by
  by_cases hsamp : tc1.is_sample = true
  · rw [hss hsamp]
  · have h1 : tc1.is_sample = false := by simpa using hsamp
    have h2 : tc2.is_sample = false := by rw [← hs]; exact h1
    simp only [entryFor, h1, h2]
    split
    · rfl
    · split
      · rfl
      · have hstat : (if (r.output = pyStrip tc1.expected_output)
              then "PASSED" else "FAILED")
            = (if (r.output = pyStrip tc2.expected_output)
              then "PASSED" else "FAILED") := if_congr hiff rfl rfl
        simp [hstat]

theorem runCases_content_independent (language code : String)
    (o1 o2 : Nat → ProviderResponse) :
    ∀ (cs1 cs2 : List TestCase) (i : Nat) (st : EvalState),
      cs1.length = cs2.length →
      (∀ k tc1 tc2, cs1.get? k = some tc1 → cs2.get? k = some tc2 →
        run_code language code tc1.input_data (o1 (i + k))
            = run_code language code tc2.input_data (o2 (i + k))
          ∧ tc1.is_sample = tc2.is_sample
          ∧ (tc1.is_sample = true → tc1 = tc2)
          ∧ ((run_code language code tc1.input_data (o1 (i + k))).output
                = pyStrip tc1.expected_output
              ↔ (run_code language code tc2.input_data (o2 (i + k))).output
                = pyStrip tc2.expected_output)) →
      runCases language code o1 cs1 i st = runCases language code o2 cs2 i st := by
  intro cs1
  induction cs1 with
  | nil =>
    intro cs2 i st hlen _
    have hnil : cs2 = [] := by
      cases cs2 with
      | nil => rfl
      | cons a l => simp at hlen
    subst hnil
    rfl
  | cons tc1 rest1 ih =>
    intro cs2 i st hlen h
    cases cs2 with
    | nil => simp at hlen
    | cons tc2 rest2 =>
      have h0 := h 0 tc1 tc2 (by simp) (by simp)
      simp only [Nat.add_zero] at h0
      obtain ⟨hr, hs, hss, hiff⟩ := h0
      rw [← hr] at hiff
      have hentry := entryFor_congr i tc1 tc2
        (run_code language code tc1.input_data (o1 i)) hs hss hiff
      simp only [runCases]
      rw [← hr]
      by_cases hc : (run_code language code tc1.input_data (o1 i)).is_compilation_error = true
      · simp [hc, hentry]
      · by_cases he : errTruthy (run_code language code tc1.input_data (o1 i)).error = true
        · simp [hc, he, hentry]
        · simp [hc, he]
          by_cases hp1 : (run_code language code tc1.input_data (o1 i)).output
              = pyStrip tc1.expected_output
          · have hp2 := hiff.mp hp1
            simp only [if_pos hp1, if_pos hp2]
            rw [hentry]
            apply ih rest2 (i + 1) _ (by simpa using hlen)
            intro k tca tcb hga hgb
            have hk := h (k + 1) tca tcb (by simpa using hga) (by simpa using hgb)
            have h2 : i + (k + 1) = i + 1 + k := by omega
            rwa [h2] at hk
          · have hp2 : ¬ (run_code language code tc1.input_data (o1 i)).output
                = pyStrip tc2.expected_output := fun hx => hp1 (hiff.mpr hx)
            simp only [if_neg hp1, if_neg hp2]
            rw [hentry]
            apply ih rest2 (i + 1) _ (by simpa using hlen)
            intro k tca tcb hga hgb
            have hk := h (k + 1) tca tcb (by simpa using hga) (by simpa using hgb)
            have h2 : i + (k + 1) = i + 1 + k := by omega
            rwa [h2] at hk

theorem run_code_error_output (language code s : String) (resp : ProviderResponse)
    (herr : errTruthy (run_code language code s resp).error = true)
    (hcomp : (run_code language code s resp).is_compilation_error = false) :
    (run_code language code s resp).output = "" := by
  by_cases hl : languageSupported language = false
  · simp [run_code, hl]
  · cases resp with
    | requestFailure m => simp [run_code, hl]
    | otherFailure m => simp [run_code, hl]
    | success o mem cpu err =>
      by_cases he : errTruthy err = true
      · simp [run_code, hl, he] at hcomp
      · simp only [run_code, if_neg hl] at herr
        rw [if_neg he] at herr
        simp [errTruthy] at herr

theorem sampleEntryFor_masked (language code s : String) (resp : ProviderResponse)
    (tc : TestCase) (h : tc.is_sample = false) :
    maskedSample (sampleEntryFor tc (run_code language code s resp)) := by
  simp only [sampleEntryFor, maskedSample, h]
  by_cases hc : (run_code language code s resp).is_compilation_error = true
  · simp [hc]
  · by_cases he : errTruthy (run_code language code s resp).error = true
    · simp [hc, he]
      exact Or.inl (run_code_error_output language code s resp he (by simpa using hc))
    · simp [hc, he]
      tauto

theorem run_against_shape (code language : String) (oracle : Nat → ProviderResponse) :
    ∀ (cases : List TestCase) (i : Nat),
      ∀ e ∈ run_against_test_cases code language oracle cases i,
        ∃ k tc, cases.get? k = some tc
          ∧ e = sampleEntryFor tc
              (run_code language code tc.input_data (oracle (i + k))) := by
  intro cases
  induction cases with
  | nil =>
    intro i e he
    simp [run_against_test_cases] at he
  | cons tc0 rest ih =>
    intro i e he
    simp only [run_against_test_cases] at he
    by_cases hc : (run_code language code tc0.input_data (oracle i)).is_compilation_error = true
    · simp [hc] at he
      exact ⟨0, tc0, by simp, by simpa using he⟩
    · by_cases herr : errTruthy (run_code language code tc0.input_data (oracle i)).error = true
      · simp [hc, herr] at he
        rcases he with he | he
        · exact ⟨0, tc0, by simp, by simpa using he⟩
        · obtain ⟨k, tc, hget, hee⟩ := ih (i + 1) e he
          refine ⟨k + 1, tc, by simpa using hget, ?_⟩
          have h2 : i + (k + 1) = i + 1 + k := by omega
          rw [h2]
          exact hee
      · simp [hc, herr] at he
        rcases he with he | he
        · exact ⟨0, tc0, by simp, by simpa using he⟩
        · obtain ⟨k, tc, hget, hee⟩ := ih (i + 1) e he
          refine ⟨k + 1, tc, by simpa using hget, ?_⟩
          have h2 : i + (k + 1) = i + 1 + k := by omega
          rw [h2]
          exact hee

/-! ### Statistics updater lemmas -/

theorem updateBestRuntime_runtime (sub : SubmissionInfo) (u : UserProblemStatsR) :
    (updateBestRuntime sub u).best_runtime = bestVal sub.execution_time u.best_runtime := by
  unfold updateBestRuntime bestVal
  cases sub.execution_time with
  | none => rfl
  | some t =>
    by_cases ht : t = 0
    · simp [ht]
    · by_cases hcond : u.best_runtime = 0 ∨ t < u.best_runtime
      · simp [ht, hcond]
      · simp [ht, hcond]

theorem updateBestMemory_memory (sub : SubmissionInfo) (u : UserProblemStatsR) :
    (updateBestMemory sub u).best_memory = bestVal sub.memory_used u.best_memory := by
  unfold updateBestMemory bestVal
  cases sub.memory_used with
  | none => rfl
  | some m =>
    by_cases hm : m = 0
    · simp [hm]
    · by_cases hcond : u.best_memory = 0 ∨ m < u.best_memory
      · simp [hm, hcond]
      · simp [hm, hcond]

theorem updateBestRuntime_memory (sub : SubmissionInfo) (u : UserProblemStatsR) :
    (updateBestRuntime sub u).best_memory = u.best_memory := by
  unfold updateBestRuntime
  repeat' split
  all_goals rfl

theorem updateBestMemory_runtime (sub : SubmissionInfo) (u : UserProblemStatsR) :
    (updateBestMemory sub u).best_runtime = u.best_runtime := by
  unfold updateBestMemory
  repeat' split
  all_goals rfl

theorem updateBestRuntime_solved (sub : SubmissionInfo) (u : UserProblemStatsR) :
    (updateBestRuntime sub u).is_solved = u.is_solved := by
  unfold updateBestRuntime
  repeat' split
  all_goals rfl

theorem updateBestMemory_solved (sub : SubmissionInfo) (u : UserProblemStatsR) :
    (updateBestMemory sub u).is_solved = u.is_solved := by
  unfold updateBestMemory
  repeat' split
  all_goals rfl

theorem updateBestRuntime_first (sub : SubmissionInfo) (u : UserProblemStatsR) :
    (updateBestRuntime sub u).first_solved_at = u.first_solved_at := by
  unfold updateBestRuntime
  repeat' split
  all_goals rfl

theorem updateBestMemory_first (sub : SubmissionInfo) (u : UserProblemStatsR) :
    (updateBestMemory sub u).first_solved_at = u.first_solved_at := by
  unfold updateBestMemory
  repeat' split
  all_goals rfl

theorem bestVal_idem (t0 : Option Rat) (b : Rat) :
    bestVal t0 (bestVal t0 b) = bestVal t0 b := by
  unfold bestVal
  cases t0 with
  | none => rfl
  | some t =>
    by_cases ht : t = 0
    · simp [ht]
    · by_cases hcond : b = 0 ∨ t < b
      · simp [ht, hcond]
      · simp [ht, hcond]

theorem update_accepted_solved (now : Nat) (difficulty : String) (sub : SubmissionInfo)
    (s : StatsState) :
    (update_user_problem_stats now difficulty sub "ACCEPTED" s).ups.is_solved = true := by
  simp only [update_user_problem_stats]
  simp only [reduceIte]
  rw [updateBestMemory_solved, updateBestRuntime_solved]
  split
  · next hsolved => simpa using hsolved
  · rfl

theorem update_accepted_best_runtime (now : Nat) (difficulty : String) (sub : SubmissionInfo)
    (s : StatsState) :
    (update_user_problem_stats now difficulty sub "ACCEPTED" s).ups.best_runtime
      = bestVal sub.execution_time s.ups.best_runtime := by
  simp only [update_user_problem_stats]
  simp only [reduceIte]
  rw [updateBestMemory_runtime, updateBestRuntime_runtime]
  congr 1
  split <;> rfl

theorem update_accepted_best_memory (now : Nat) (difficulty : String) (sub : SubmissionInfo)
    (s : StatsState) :
    (update_user_problem_stats now difficulty sub "ACCEPTED" s).ups.best_memory
      = bestVal sub.memory_used s.ups.best_memory := by
  simp only [update_user_problem_stats]
  simp only [reduceIte]
  rw [updateBestMemory_memory]
  congr 1
  rw [updateBestRuntime_memory]
  split <;> rfl

theorem update_accepted_first (now : Nat) (difficulty : String) (sub : SubmissionInfo)
    (s : StatsState) :
    (update_user_problem_stats now difficulty sub "ACCEPTED" s).ups.first_solved_at
      = (if s.ups.is_solved then s.ups.first_solved_at else some now) := by
  simp only [update_user_problem_stats]
  simp only [reduceIte]
  rw [updateBestMemory_first, updateBestRuntime_first]
  split
  · next hsolved => simp [show s.ups.is_solved = true from hsolved]
  · next hsolved => simp [show s.ups.is_solved = false by simpa using hsolved]

theorem update_accepted_us (now : Nat) (difficulty : String) (sub : SubmissionInfo)
    (s : StatsState) :
    (update_user_problem_stats now difficulty sub "ACCEPTED" s).us.accepted_submissions
      = (if s.ups.is_solved then s.us.accepted_submissions
          else s.us.accepted_submissions + 1) := by
  simp only [update_user_problem_stats]
  simp only [reduceIte]
  split
  · next hsolve =>
    have : s.ups.is_solved = false := by simpa using hsolve
    simp [this]
  · next hsolve =>
    have : s.ups.is_solved = true := by simpa using hsolve
    simp [this]

theorem update_accepted_prob (now : Nat) (difficulty : String) (sub : SubmissionInfo)
    (s : StatsState) :
    (update_user_problem_stats now difficulty sub "ACCEPTED" s).prob.accepted_submissions
      = s.prob.accepted_submissions + 1 := by
  simp [update_user_problem_stats]

/-! ### Claim theorems -/

/-- Claim C1: evaluation executes exactly the prefix of cases up to and
including the first case whose execution outcome is a compilation error
or a runtime/provider error (all cases when no such error occurs); a
mere output mismatch never stops evaluation, so a cleanly running
submission failing some of N cases invokes the Execution Client N times
and produces N result entries. -/
theorem evaluation_prefix_until_first_fatal (language code : String)
    (oracle : Nat → ProviderResponse) (cases : List TestCase) :
    (evaluate_submission language code oracle cases).results.length
        = specExecutedCount (fatalFlags language code oracle 0 cases)
      ∧ evalCalls language code oracle cases
        = specExecutedCount (fatalFlags language code oracle 0 cases)
      ∧ ((∀ b ∈ fatalFlags language code oracle 0 cases, b = false) →
          (evaluate_submission language code oracle cases).results.length = cases.length
            ∧ evalCalls language code oracle cases = cases.length) := by
  by_cases hempty : cases.isEmpty = true
  · have hnil : cases = [] := by simpa using hempty
    subst hnil
    simp [evaluate_submission, evalCalls, fatalFlags, specExecutedCount]
  · have h := runCases_length_calls language code oracle cases 0 initEvalState
    have h1 : (evaluate_submission language code oracle cases).results.length
        = specExecutedCount (fatalFlags language code oracle 0 cases) := by
      simp only [evaluate_submission, hempty, if_neg, ite_false, Bool.false_eq_true]
      simpa [initEvalState] using h.1
    have h2 : evalCalls language code oracle cases
        = specExecutedCount (fatalFlags language code oracle 0 cases) := by
      simp only [evalCalls, hempty, if_neg, ite_false, Bool.false_eq_true]
      simpa [initEvalState] using h.2
    refine ⟨h1, h2, fun hall => ?_⟩
    have hspec := specExecutedCount_all_false _ hall
    rw [fatalFlags_length] at hspec
    exact ⟨by rw [h1, hspec], by rw [h2, hspec]⟩

/-- Witness for C1: a submission that runs cleanly on both cases but
fails the first of 2 cases still makes 2 Execution Client calls and
yields 2 result entries. -/
theorem evaluation_prefix_witness :
    (evaluate_submission "python3" "print(1)"
        (fun _ => ProviderResponse.success (some "1") none none none)
        [⟨"t1", "", "2", true, false, 0, ""⟩,
         ⟨"t2", "", "1", false, true, 1, ""⟩]).results.length = 2
      ∧ evalCalls "python3" "print(1)"
          (fun _ => ProviderResponse.success (some "1") none none none)
          [⟨"t1", "", "2", true, false, 0, ""⟩,
           ⟨"t2", "", "1", false, true, 1, ""⟩] = 2 :=
  (evaluation_prefix_until_first_fatal "python3" "print(1)"
      (fun _ => ProviderResponse.success (some "1") none none none)
      [⟨"t1", "", "2", true, false, 0, ""⟩,
       ⟨"t2", "", "1", false, true, 1, ""⟩]).2.2 (by decide)

/-- Claim C2: `total_cases` always equals the number of test cases the
problem defines (even on early exit) and `passed_cases` equals the
number of `PASSED` entries in the result list. -/
theorem total_cases_and_passed_count (language code : String)
    (oracle : Nat → ProviderResponse) (cases : List TestCase) :
    (evaluate_submission language code oracle cases).total_cases = cases.length
      ∧ (evaluate_submission language code oracle cases).passed_cases
        = countPassed (evaluate_submission language code oracle cases).results := by
  by_cases hempty : cases.isEmpty = true
  · have hnil : cases = [] := by simpa using hempty
    subst hnil
    simp [evaluate_submission, countPassed]
  · constructor
    · simp [evaluate_submission, hempty]
    · have h := runCases_passed language code oracle cases 0 initEvalState
      simp only [evaluate_submission, hempty, if_neg, ite_false, Bool.false_eq_true]
      simpa [initEvalState, countPassed] using h

/-- Claim C8: a problem with zero test cases evaluates to an empty
result list with zero counts and status `INTERNAL_ERROR`, and the
submission finalizes as `INTERNAL_ERROR`, never `ACCEPTED`. -/
theorem zero_testcases_internal_error (code language : String)
    (oracle : Nat → ProviderResponse) (h1 : code ≠ "") (h2 : language ≠ "") :
    evaluate_submission language code oracle []
        = { status := "INTERNAL_ERROR",
            message := some "No test cases found for this problem.",
            passed_cases := 0, total_cases := 0, results := [],
            execution_time := 0, memory_used := 0 }
      ∧ (submit_solution code language oracle []).status_trace
          = ["PENDING", "INTERNAL_ERROR"]
      ∧ (submit_solution code language oracle []).response
          = SubmitResponse.ok "INTERNAL_ERROR" 0 0 []
      ∧ (submit_solution code language oracle []).status_trace
          ≠ ["PENDING", "ACCEPTED"] := by
  refine ⟨rfl, ?_, ?_, ?_⟩
  · simp [submit_solution, h1, h2, evaluate_submission]
  · simp [submit_solution, h1, h2, evaluate_submission]
  · simp [submit_solution, h1, h2, evaluate_submission]

/-- Witness for C8 at a concrete submission. -/
theorem zero_testcases_internal_error_witness :
    evaluate_submission "python3" "print(1)" (fun _ => ProviderResponse.requestFailure "x") []
        = { status := "INTERNAL_ERROR",
            message := some "No test cases found for this problem.",
            passed_cases := 0, total_cases := 0, results := [],
            execution_time := 0, memory_used := 0 }
      ∧ (submit_solution "print(1)" "python3"
          (fun _ => ProviderResponse.requestFailure "x") []).status_trace
          = ["PENDING", "INTERNAL_ERROR"]
      ∧ (submit_solution "print(1)" "python3"
          (fun _ => ProviderResponse.requestFailure "x") []).response
          = SubmitResponse.ok "INTERNAL_ERROR" 0 0 []
      ∧ (submit_solution "print(1)" "python3"
          (fun _ => ProviderResponse.requestFailure "x") []).status_trace
          ≠ ["PENDING", "ACCEPTED"] :=
  zero_testcases_internal_error "print(1)" "python3"
    (fun _ => ProviderResponse.requestFailure "x") (by decide) (by decide)

/-- Claim C10: whenever evaluation returns overall status `ACCEPTED`,
every defined case was attempted and passed: `passed_cases` equals
`total_cases`, at least one case exists, and the result list contains
only `PASSED` entries. -/
theorem accepted_requires_all_passed (language code : String)
    (oracle : Nat → ProviderResponse) (cases : List TestCase)
    (h : (evaluate_submission language code oracle cases).status = "ACCEPTED") :
    (evaluate_submission language code oracle cases).passed_cases
        = (evaluate_submission language code oracle cases).total_cases
      ∧ 1 ≤ (evaluate_submission language code oracle cases).total_cases
      ∧ ∀ r ∈ (evaluate_submission language code oracle cases).results,
          r.status = "PASSED" := by
  by_cases hempty : cases.isEmpty = true
  · simp [evaluate_submission, hempty] at h
  · simp only [evaluate_submission, hempty, if_neg, ite_false, Bool.false_eq_true] at h ⊢
    obtain ⟨-, h2, -, h4⟩ :=
      runCases_accepted language code oracle cases 0 initEvalState h
    refine ⟨by simpa [initEvalState] using h2, ?_, ?_⟩
    · have : cases ≠ [] := by simpa [List.isEmpty_iff] using hempty
      have := List.length_pos.mpr this
      omega
    · intro r hr
      rcases h4 r hr with hmem | hpass
      · simp [initEvalState] at hmem
      · exact hpass

/-- Witness for C10: a concrete all-passing evaluation. -/
theorem accepted_requires_all_passed_witness :
    (evaluate_submission "python3" "print(1)"
        (fun _ => ProviderResponse.success (some "1") none none none)
        [⟨"t1", "", "1", true, false, 0, ""⟩]).passed_cases
        = (evaluate_submission "python3" "print(1)"
            (fun _ => ProviderResponse.success (some "1") none none none)
            [⟨"t1", "", "1", true, false, 0, ""⟩]).total_cases
      ∧ 1 ≤ (evaluate_submission "python3" "print(1)"
            (fun _ => ProviderResponse.success (some "1") none none none)
            [⟨"t1", "", "1", true, false, 0, ""⟩]).total_cases
 :=
  ⟨(accepted_requires_all_passed "python3" "print(1)"
      (fun _ => ProviderResponse.success (some "1") none none none)
      [⟨"t1", "", "1", true, false, 0, ""⟩] (by decide)).1,
   (accepted_requires_all_passed "python3" "print(1)"
      (fun _ => ProviderResponse.success (some "1") none none none)
      [⟨"t1", "", "1", true, false, 0, ""⟩] (by decide)).2.1⟩

/-- Claim C3 as stated is false: the code never assigns `RUNNING` —
`submit_solution` creates the record as `PENDING` and the next value
stored in `status` is already the terminal one.  Concrete refutation:
a successful submission whose status trace contains no `RUNNING`. -/
theorem no_running_state_counterexample :
    ¬ ("RUNNING" ∈ (submit_solution "print(1)" "python3"
        (fun _ => ProviderResponse.success (some "1") none none none)
        [⟨"t1", "", "1", true, false, 0, ""⟩]).status_trace)
      ∧ (submit_solution "print(1)" "python3"
          (fun _ => ProviderResponse.success (some "1") none none none)
          [⟨"t1", "", "1", true, false, 0, ""⟩]).status_trace
        = ["PENDING", "ACCEPTED"] := by decide

/-- Claim C3 amended: a submission's status is `PENDING` at creation and
moves directly to exactly one terminal state among `ACCEPTED`,
`WRONG_ANSWER`, `RUNTIME_ERROR`, `COMPILATION_ERROR`, `INTERNAL_ERROR`;
`RUNNING` (declared in `SUBMISSION_STATUS_CHOICES`) and
`TIME_LIMIT_EXCEEDED` are never assigned, and no separate re-evaluation
path exists (every submit creates a fresh record), so no transition
leaves a terminal state. -/
theorem submission_status_lifecycle (code language : String)
    (oracle : Nat → ProviderResponse) (cases : List TestCase)
    (h1 : code ≠ "") (h2 : language ≠ "") :
    (submit_solution code language oracle cases).status_trace
        = ["PENDING", (evaluate_submission language code oracle cases).status]
      ∧ (evaluate_submission language code oracle cases).status
          ∈ ["ACCEPTED", "WRONG_ANSWER", "RUNTIME_ERROR",
             "COMPILATION_ERROR", "INTERNAL_ERROR"]
      ∧ "RUNNING" ∉ (submit_solution code language oracle cases).status_trace
      ∧ "TIME_LIMIT_EXCEEDED" ∉ (submit_solution code language oracle cases).status_trace
      ∧ ("RUNNING", "Running") ∈ SUBMISSION_STATUS_CHOICES := by
  have htrace : (submit_solution code language oracle cases).status_trace
      = ["PENDING", (evaluate_submission language code oracle cases).status] := by
    simp [submit_solution, h1, h2]
  have hmem : (evaluate_submission language code oracle cases).status
      ∈ ["ACCEPTED", "WRONG_ANSWER", "RUNTIME_ERROR",
         "COMPILATION_ERROR", "INTERNAL_ERROR"] := by
    by_cases hempty : cases.isEmpty = true
    · simp [evaluate_submission, hempty]
    · simp only [evaluate_submission, hempty, if_neg, ite_false, Bool.false_eq_true]
      exact runCases_status_invariant language code oracle cases 0 initEvalState _
        (by simp [initEvalState]) (by simp) (by simp) (by simp)
  refine ⟨htrace, hmem, ?_, ?_, by simp [SUBMISSION_STATUS_CHOICES]⟩
  · rw [htrace]
    intro hin
    rcases List.mem_cons.mp hin with hx | hx
    · simp at hx
    · rcases List.mem_singleton.mp hx with hx
      rw [← hx] at hmem
      simp at hmem
  · rw [htrace]
    intro hin
    rcases List.mem_cons.mp hin with hx | hx
    · simp at hx
    · rcases List.mem_singleton.mp hx with hx
      rw [← hx] at hmem
      simp at hmem

/-- Witness for the amended C3 at a concrete submission. -/
theorem submission_status_lifecycle_witness :
    (submit_solution "print(1)" "python3"
        (fun _ => ProviderResponse.success (some "1") none none none)
        [⟨"t1", "", "1", true, false, 0, ""⟩]).status_trace
        = ["PENDING", (evaluate_submission "python3" "print(1)"
            (fun _ => ProviderResponse.success (some "1") none none none)
            [⟨"t1", "", "1", true, false, 0, ""⟩]).status]
      ∧ (evaluate_submission "python3" "print(1)"
          (fun _ => ProviderResponse.success (some "1") none none none)
          [⟨"t1", "", "1", true, false, 0, ""⟩]).status
          ∈ ["ACCEPTED", "WRONG_ANSWER", "RUNTIME_ERROR",
             "COMPILATION_ERROR", "INTERNAL_ERROR"]
      ∧ "RUNNING" ∉ (submit_solution "print(1)" "python3"
          (fun _ => ProviderResponse.success (some "1") none none none)
          [⟨"t1", "", "1", true, false, 0, ""⟩]).status_trace
      ∧ "TIME_LIMIT_EXCEEDED" ∉ (submit_solution "print(1)" "python3"
          (fun _ => ProviderResponse.success (some "1") none none none)
          [⟨"t1", "", "1", true, false, 0, ""⟩]).status_trace
      ∧ ("RUNNING", "Running") ∈ SUBMISSION_STATUS_CHOICES :=
  submission_status_lifecycle "print(1)" "python3"
    (fun _ => ProviderResponse.success (some "1") none none none)
    [⟨"t1", "", "1", true, false, 0, ""⟩] (by decide) (by decide)

/-- Claim C4 as stated is false: a provider network failure is folded
into the generic error field and `evaluate_submission` classifies it
`RUNTIME_ERROR`, not `INTERNAL_ERROR`.  Concrete refutation at a
one-case problem whose only call times out. -/
theorem provider_failure_counterexample :
    (evaluate_submission "python3" "print(1)"
        (fun _ => ProviderResponse.requestFailure "timeout")
        [⟨"t1", "", "1", true, false, 0, ""⟩]).status = "RUNTIME_ERROR"
      ∧ (evaluate_submission "python3" "print(1)"
          (fun _ => ProviderResponse.requestFailure "timeout")
          [⟨"t1", "", "1", true, false, 0, ""⟩]).status ≠ "INTERNAL_ERROR" := by decide

/-- Claim C4 amended: on network failure or timeout the Execution Client
returns (rather than raises) an outcome with the fixed error message
`Failed to connect to execution service.` and no compilation flag; when
evaluation reaches such a case (all earlier cases non-fatal), the
submission's overall status is `RUNTIME_ERROR` — not `INTERNAL_ERROR`. -/
theorem provider_failure_runtime_error (language code : String)
    (oracle : Nat → ProviderResponse) (cases : List TestCase)
    (k : Nat) (tc : TestCase) (m : String)
    (hsupp : languageSupported language = true)
    (hget : cases.get? k = some tc)
    (hresp : oracle k = ProviderResponse.requestFailure m)
    (hbefore : ∀ j tcj, j < k → cases.get? j = some tcj →
      isFatal (run_code language code tcj.input_data (oracle j)) = false) :
    run_code language code tc.input_data (oracle k)
        = { output := "", memory := none, cpuTime := none,
            error := some "Failed to connect to execution service.",
            is_compilation_error := false }
      ∧ (evaluate_submission language code oracle cases).status = "RUNTIME_ERROR"
      ∧ (evaluate_submission language code oracle cases).status ≠ "INTERNAL_ERROR" := by
  have hrc : run_code language code tc.input_data (oracle k)
      = { output := "", memory := none, cpuTime := none,
          error := some "Failed to connect to execution service.",
          is_compilation_error := false } := by
    rw [hresp]
    simp [run_code, hsupp]
  have hne : cases ≠ [] := by
    intro hx
    subst hx
    simp at hget
  have hempty : ¬ cases.isEmpty = true := by simpa [List.isEmpty_iff] using hne
  have hstatus : (runCases language code oracle cases 0 initEvalState).overall_status
      = "RUNTIME_ERROR" := by
    apply runCases_runtime_break language code oracle cases 0 initEvalState k tc hget
    · intro j tcj hj hgj
      simpa using hbefore j tcj hj hgj
    · rw [Nat.zero_add, hrc]
    · rw [Nat.zero_add, hrc]
      decide
  refine ⟨hrc, ?_, ?_⟩
  · simp only [evaluate_submission, hempty, if_neg, ite_false, Bool.false_eq_true]
    exact hstatus
  · simp only [evaluate_submission, hempty, if_neg, ite_false, Bool.false_eq_true]
    simp [hstatus]

/-- Witness for the amended C4: timeout on the only case. -/
theorem provider_failure_runtime_error_witness :
    run_code "python3" "print(1)" ""
        ((fun _ => ProviderResponse.requestFailure "timeout") 0)
        = { output := "", memory := none, cpuTime := none,
            error := some "Failed to connect to execution service.",
            is_compilation_error := false }
      ∧ (evaluate_submission "python3" "print(1)"
          (fun _ => ProviderResponse.requestFailure "timeout")
          [⟨"t1", "", "1", true, false, 0, ""⟩]).status = "RUNTIME_ERROR"
      ∧ (evaluate_submission "python3" "print(1)"
          (fun _ => ProviderResponse.requestFailure "timeout")
          [⟨"t1", "", "1", true, false, 0, ""⟩]).status ≠ "INTERNAL_ERROR" :=
  provider_failure_runtime_error "python3" "print(1)"
    (fun _ => ProviderResponse.requestFailure "timeout")
    [⟨"t1", "", "1", true, false, 0, ""⟩] 0
    ⟨"t1", "", "1", true, false, 0, ""⟩ "timeout"
    (by decide) (by decide) rfl
    (fun j tcj hj _ => absurd hj (Nat.not_lt_zero j))

/-- Claim C5 as stated is false: an unsupported language is not rejected
before persistence — `submit_solution` creates the record and the
`Unsupported language` error surfaces per-case, finalizing the
submission as `RUNTIME_ERROR`.  Concrete refutation with a language
absent from the registry. -/
theorem unsupported_language_counterexample :
    languageSupported "brainfuck" = false
      ∧ (submit_solution "print(1)" "brainfuck"
          (fun _ => ProviderResponse.requestFailure "x")
          [⟨"t1", "", "1", true, false, 0, ""⟩]).record_created = true
      ∧ (submit_solution "print(1)" "brainfuck"
          (fun _ => ProviderResponse.requestFailure "x")
          [⟨"t1", "", "1", true, false, 0, ""⟩]).status_trace
        = ["PENDING", "RUNTIME_ERROR"] := by decide

/-- Claim C5 amended: a submission whose language is absent from the
Language Registry is still persisted — only empty code or an empty
language string is rejected without a record.  `run_code` returns the
`Unsupported language` error for every case, so the persisted record
finalizes as `RUNTIME_ERROR` (or `INTERNAL_ERROR` when the problem has
no test cases). -/
theorem unsupported_language_persists (code language : String)
    (oracle : Nat → ProviderResponse) (cases : List TestCase)
    (h1 : code ≠ "") (h2 : language ≠ "")
    (h3 : languageSupported language = false) :
    (submit_solution code language oracle cases).record_created = true
      ∧ (cases = [] → (submit_solution code language oracle cases).status_trace
          = ["PENDING", "INTERNAL_ERROR"])
      ∧ (cases ≠ [] → (submit_solution code language oracle cases).status_trace
          = ["PENDING", "RUNTIME_ERROR"]) := by
  refine ⟨by simp [submit_solution, h1, h2], ?_, ?_⟩
  · rintro rfl
    simp [submit_solution, h1, h2, evaluate_submission]
  · intro hne
    obtain ⟨tc0, rest, rfl⟩ := List.exists_cons_of_ne_nil hne
    have hempty : ¬ (tc0 :: rest).isEmpty = true := by simp
    have hstatus : (runCases language code oracle (tc0 :: rest) 0
        initEvalState).overall_status = "RUNTIME_ERROR" := by
      apply runCases_runtime_break language code oracle (tc0 :: rest) 0 initEvalState 0 tc0
        (by simp)
        (fun j tcj hj _ => absurd hj (Nat.not_lt_zero j))
      · simp [run_code, h3]
      · simp [run_code, h3, errTruthy]
    simp only [submit_solution, evaluate_submission, hempty, if_neg, ite_false,
      Bool.false_eq_true]
    simp [h1, h2, evaluate_submission, hempty, hstatus]

/-- Witness for the amended C5: concrete unsupported-language submission
with one test case. -/
theorem unsupported_language_persists_witness :
    (submit_solution "print(1)" "cobol"
        (fun _ => ProviderResponse.requestFailure "x")
        [⟨"t1", "", "1", true, false, 0, ""⟩]).record_created = true
      ∧ (submit_solution "print(1)" "cobol"
          (fun _ => ProviderResponse.requestFailure "x")
          [⟨"t1", "", "1", true, false, 0, ""⟩]).status_trace
        = ["PENDING", "RUNTIME_ERROR"] :=
  ⟨(unsupported_language_persists "print(1)" "cobol"
      (fun _ => ProviderResponse.requestFailure "x")
      [⟨"t1", "", "1", true, false, 0, ""⟩]
      (by decide) (by decide) (by decide)).1,
   (unsupported_language_persists "print(1)" "cobol"
      (fun _ => ProviderResponse.requestFailure "x")
      [⟨"t1", "", "1", true, false, 0, ""⟩]
      (by decide) (by decide) (by decide)).2.2 (by decide)⟩

/-- Claim C6 as stated is false: normalization is Python `str.strip()`,
which removes all leading and trailing whitespace, not a single trailing
newline — so a trailing-whitespace difference is masked.  Concretely,
stdout `"42   "` against expected `"42"` is judged `PASSED`. -/
theorem trailing_whitespace_masked_counterexample :
    ((evaluate_submission "python3" "print(42)"
        (fun _ => ProviderResponse.success (some "42   ") none none none)
        [⟨"t1", "", "42", true, false, 0, ""⟩]).results.map
          (fun r => r.status)) = ["PASSED"]
      ∧ pyStrip "42   " = "42"
      ∧ ("42   " : String) ≠ "42" := by decide

/-- Claim C6 amended: before comparison the program's stdout is
normalized with Python `str.strip()` (all leading and trailing
whitespace removed, not just one trailing newline) and the expected
output receives the same `strip`, so a case passes exactly when the two
stripped strings coincide and trailing-whitespace differences never
produce a mismatch. -/
theorem normalization_strips_all_whitespace (code inp out exp : String) :
    (run_code "python3" code inp
        (ProviderResponse.success (some out) none none none)).output = pyStrip out
      ∧ ((evaluate_submission "python3" code
            (fun _ => ProviderResponse.success (some out) none none none)
            [⟨"t1", inp, exp, true, false, 0, ""⟩]).results.map (fun r => r.status))
          = [if pyStrip out = pyStrip exp then "PASSED" else "FAILED"] := by
  have hs : languageSupported "python3" = true := by decide
  have hrc : run_code "python3" code inp
      (ProviderResponse.success (some out) none none none)
      = { output := pyStrip out, memory := none, cpuTime := none,
          error := none, is_compilation_error := false } := by
    simp [run_code, hs, errTruthy]
  refine ⟨by rw [hrc], ?_⟩
  have hrc0 : run_code "python3" code
      ((⟨"t1", inp, exp, true, false, 0, ""⟩ : TestCase).input_data)
      ((fun _ => ProviderResponse.success (some out) none none none) 0)
      = { output := pyStrip out, memory := none, cpuTime := none,
          error := none, is_compilation_error := false } := hrc
  simp only [evaluate_submission, runCases, hrc0]
  by_cases hp : pyStrip out = pyStrip exp
  · simp [entryFor, errTruthy, hp, initEvalState]
  · simp [entryFor, errTruthy, hp, initEvalState]

/-- Claim C7: for every non-sample test case, the per-case result never
contains the case's input, expected output, or actual output — only the
classification and error text — and two evaluations that differ only in
hidden-case content but agree on each case's execution outcome and
pass/fail verdict return identical results (in fact identical
`EvalResult`s).  The same masking holds on the sample-run surface
`run_against_test_cases`. -/
theorem hidden_case_content_masked (language code : String)
    (o1 o2 : Nat → ProviderResponse) (cs1 cs2 : List TestCase)
    (hlen : cs1.length = cs2.length)
    (hpt : ∀ k tc1 tc2, cs1.get? k = some tc1 → cs2.get? k = some tc2 →
      run_code language code tc1.input_data (o1 k)
          = run_code language code tc2.input_data (o2 k)
        ∧ tc1.is_sample = tc2.is_sample
        ∧ (tc1.is_sample = true → tc1 = tc2)
        ∧ ((run_code language code tc1.input_data (o1 k)).output
              = pyStrip tc1.expected_output
            ↔ (run_code language code tc2.input_data (o2 k)).output
              = pyStrip tc2.expected_output)) :
    (∀ r ∈ (evaluate_submission language code o1 cs1).results,
        ∃ k tc, cs1.get? k = some tc ∧ r.case_number = k + 1
          ∧ (tc.is_sample = false → maskedEntry r))
      ∧ evaluate_submission language code o1 cs1
          = evaluate_submission language code o2 cs2
      ∧ (∀ e ∈ run_against_test_cases code language o1 cs1 0,
          ∃ k tc, cs1.get? k = some tc ∧ (tc.is_sample = false → maskedSample e)) := by
  refine ⟨?_, ?_, ?_⟩
  · intro r hr
    by_cases hempty : cs1.isEmpty = true
    · simp [evaluate_submission, hempty] at hr
    · simp only [evaluate_submission, hempty, if_neg, ite_false, Bool.false_eq_true] at hr
      rcases runCases_results_shape language code o1 cs1 0 initEvalState r hr with
        hmem | ⟨k, tc, hget, hee⟩
      · simp [initEvalState] at hmem
      · refine ⟨k, tc, hget, ?_, ?_⟩
        · rw [hee, entryFor_case_number]
          omega
        · intro hsamp
          rw [hee]
          exact entryFor_masked (0 + k) tc _ hsamp
  · by_cases hempty : cs1.isEmpty = true
    · have h1 : cs1 = [] := by simpa using hempty
      have h2 : cs2 = [] := by
        subst h1
        cases cs2 with
        | nil => rfl
        | cons a l => simp at hlen
      subst h1
      subst h2
      rfl
    · have hempty2 : ¬ cs2.isEmpty = true := by
        intro hx
        have : cs2 = [] := by simpa using hx
        subst this
        simp at hlen
        have : cs1 = [] := by simpa [List.length_eq_zero] using hlen
        subst this
        simp at hempty
      have heq := runCases_content_independent language code o1 o2 cs1 cs2 0
        initEvalState hlen
        (fun k tc1 tc2 ha hb => by simpa using hpt k tc1 tc2 ha hb)
      simp only [evaluate_submission, hempty, hempty2, if_neg, ite_false,
        Bool.false_eq_true]
      rw [heq, hlen]
  · intro e he
    rcases run_against_shape code language o1 cs1 0 e he with ⟨k, tc, hget, hee⟩
    refine ⟨k, tc, hget, fun hsamp => ?_⟩
    rw [hee]
    exact sampleEntryFor_masked language code tc.input_data _ tc hsamp

/-- Witness for C7: two one-case problems differing only in the hidden
case's input and expected output, with identical execution outcomes and
verdicts, produce identical evaluation results. -/
theorem hidden_case_content_masked_witness :
    evaluate_submission "python3" "print(2)"
        (fun _ => ProviderResponse.success (some "2") none none none)
        [⟨"h1", "a", "1", false, true, 0, ""⟩]
      = evaluate_submission "python3" "print(2)"
        (fun _ => ProviderResponse.success (some "2") none none none)
        [⟨"h1", "b", "01", false, true, 0, ""⟩] :=
  (hidden_case_content_masked "python3" "print(2)"
      (fun _ => ProviderResponse.success (some "2") none none none)
      (fun _ => ProviderResponse.success (some "2") none none none)
      [⟨"h1", "a", "1", false, true, 0, ""⟩]
      [⟨"h1", "b", "01", false, true, 0, ""⟩]
      (by decide)
      (by
        intro k tc1 tc2 h1 h2
        match k with
        | 0 =>
          simp at h1 h2
          subst h1
          subst h2
          refine ⟨rfl, rfl, by simp, by decide⟩
        | Nat.succ n =>
          simp at h1)).2.1

/-- Claim C9 as stated is false: the problem-level
`accepted_submissions` counter is incremented on every call with an
`ACCEPTED` submission, so applying the update twice with the same
accepted submission double-counts it (2 instead of 1). -/
theorem double_apply_counterexample :
    (update_user_problem_stats 10 "EASY" ⟨7, some 2, some 100⟩ "ACCEPTED"
        ⟨⟨false, false, none, 0, 0, 0, none⟩, ⟨0, 0, 0, 0, 0, 0⟩, ⟨0, 0⟩⟩
      ).prob.accepted_submissions = 1
      ∧ (update_user_problem_stats 11 "EASY" ⟨7, some 2, some 100⟩ "ACCEPTED"
          (update_user_problem_stats 10 "EASY" ⟨7, some 2, some 100⟩ "ACCEPTED"
            ⟨⟨false, false, none, 0, 0, 0, none⟩, ⟨0, 0, 0, 0, 0, 0⟩, ⟨0, 0⟩⟩)
        ).prob.accepted_submissions = 2 := by decide

/-- Claim C9 amended: a second apply with the same `ACCEPTED` submission
leaves the user-level `accepted_submissions` and the stored
`best_runtime`/`best_memory` unchanged (a stored best is replaced only
when it is 0, i.e. unset, or the new value is strictly lower — ties
keep the earlier record) and does not reset `is_solved` or
`first_solved_at`; but it increments the problem-level
`accepted_submissions` again, double-counting it. -/
theorem stats_second_apply (now1 now2 : Nat) (difficulty : String)
    (sub : SubmissionInfo) (s : StatsState) :
    (update_user_problem_stats now2 difficulty sub "ACCEPTED"
        (update_user_problem_stats now1 difficulty sub "ACCEPTED" s)
      ).us.accepted_submissions
        = (update_user_problem_stats now1 difficulty sub "ACCEPTED" s
          ).us.accepted_submissions
      ∧ (update_user_problem_stats now2 difficulty sub "ACCEPTED"
          (update_user_problem_stats now1 difficulty sub "ACCEPTED" s)
        ).prob.accepted_submissions
        = (update_user_problem_stats now1 difficulty sub "ACCEPTED" s
          ).prob.accepted_submissions + 1
      ∧ (update_user_problem_stats now2 difficulty sub "ACCEPTED"
          (update_user_problem_stats now1 difficulty sub "ACCEPTED" s)
        ).ups.best_runtime
        = (update_user_problem_stats now1 difficulty sub "ACCEPTED" s
          ).ups.best_runtime
      ∧ (update_user_problem_stats now2 difficulty sub "ACCEPTED"
          (update_user_problem_stats now1 difficulty sub "ACCEPTED" s)
        ).ups.best_memory
        = (update_user_problem_stats now1 difficulty sub "ACCEPTED" s
          ).ups.best_memory
      ∧ (update_user_problem_stats now2 difficulty sub "ACCEPTED"
          (update_user_problem_stats now1 difficulty sub "ACCEPTED" s)
        ).ups.first_solved_at
        = (update_user_problem_stats now1 difficulty sub "ACCEPTED" s
          ).ups.first_solved_at
      ∧ (update_user_problem_stats now1 difficulty sub "ACCEPTED" s
        ).ups.is_solved = true := by
  have hsolved : (update_user_problem_stats now1 difficulty sub "ACCEPTED" s
      ).ups.is_solved = true := update_accepted_solved now1 difficulty sub s
  refine ⟨?_, update_accepted_prob now2 difficulty sub _, ?_, ?_, ?_, hsolved⟩
  · rw [update_accepted_us]
    simp [hsolved]
  · rw [update_accepted_best_runtime, update_accepted_best_runtime]
    exact bestVal_idem sub.execution_time s.ups.best_runtime
  · rw [update_accepted_best_memory, update_accepted_best_memory]
    exact bestVal_idem sub.memory_used s.ups.best_memory
  · rw [update_accepted_first]
    simp [hsolved]

end Mockmate
